import Mathlib

/-!
Shallow embedding of the logistics backend's shipment lifecycle, payment
ledger, driver assignment and admin login code, together with proofs of the
specified properties.

The definitions mirror the JavaScript source:
  * `models/Shipment.js` (schema pre-save hook, `updateStatus` method),
  * `models/Payment.js` (`totalRefunded` / `remainingBalance` virtuals,
    `updateStatus`, `addRefund`),
  * `models/Admin.js` (`handleLoginAttempt`, `isLocked` virtual),
  * `routes/shipments.js` (create / status-update / assign endpoints),
  * `routes/payments.js` (create / refund / partial-payment endpoints),
  * `routes/auth.js` (login flow ordering).

Monetary amounts and weights are rationals; timestamps are naturals
(milliseconds, as `Date.now()` yields).
-/

namespace Logistic

instance {ε α : Type} [DecidableEq ε] [DecidableEq α] : DecidableEq (Except ε α) :=
  fun a b =>
  match a, b with
  | .ok x, .ok y =>
    match decEq x y with
    | isTrue h => isTrue (h ▸ rfl)
    | isFalse h => isFalse (fun hc => h (Except.ok.inj hc))
  | .error x, .error y =>
    match decEq x y with
    | isTrue h => isTrue (h ▸ rfl)
    | isFalse h => isFalse (fun hc => h (Except.error.inj hc))
  | .ok _, .error _ => isFalse (fun hc => Except.noConfusion hc)
  | .error _, .ok _ => isFalse (fun hc => Except.noConfusion hc)

/-- Whitespace trimming (the `.trim()` of the express validators), stated
over `String.data` so that it evaluates on concrete inputs. -/
def trimStr (s : String) : String :=
  ⟨((s.data.dropWhile Char.isWhitespace).reverse.dropWhile Char.isWhitespace).reverse⟩

/-- The closed shipment status enumeration of `shipmentSchema.status`. -/
inductive ShipmentStatus where
  | pending
  | assigned
  | picked
  | packed
  | processing
  | in_transit
  | out_for_delivery
  | delivered
  | failed
  | returned
  | cancelled
deriving DecidableEq, Repr

/-- One entry of `shipmentSchema.timeline`. -/
structure TimelineEntry where
  status : ShipmentStatus
  timestamp : Nat
  location : Option String
  notes : Option String
  updatedBy : String
  updatedByUser : Option Nat
deriving DecidableEq, Repr

/-- A raw manifest item as supplied in the request body (`items.*`).
Fields are raw so that the express-validator constraints are meaningful. -/
structure RawItem where
  name : String
  quantity : Int
  weight : Rat
  valueAmount : Option Rat
  category : String
deriving DecidableEq, Repr

/-- The shipment aggregate: the fields of `shipmentSchema` the lifecycle
logic reads or writes. -/
structure Shipment where
  client : Nat
  driver : Option Nat
  description : String
  items : List RawItem
  totalWeight : Rat
  totalValue : Rat
  status : ShipmentStatus
  timeline : List TimelineEntry
  requestedPickupDate : Nat
  requestedDeliveryDate : Nat
  actualPickupDate : Option Nat
  actualDeliveryDate : Option Nat
deriving DecidableEq, Repr

/-- `shipmentSchema.methods.updateStatus`: set `status`, append a timeline
entry, stamp `actualPickupDate` / `actualDeliveryDate` for `picked` /
`delivered`. -/
def Shipment.updateStatus (s : Shipment) (now : Nat) (newStatus : ShipmentStatus)
    (location : Option String) (notes : Option String) (updatedBy : String)
    (updatedByUser : Option Nat) : Shipment :=
  let s' := { s with
    status := newStatus,
    timeline := s.timeline ++
      [⟨newStatus, now, location, notes, updatedBy, updatedByUser⟩] }
  if newStatus = .picked then { s' with actualPickupDate := some now }
  else if newStatus = .delivered then { s' with actualDeliveryDate := some now }
  else s'

/-- The categories accepted by `items.*.category` validation. -/
def validCategory (c : String) : Bool :=
  c ∈ ["Electronics", "Clothing", "Food", "Documents", "Machinery", "Chemicals", "Other"]

/-- The service types accepted by `serviceType` validation. -/
def validServiceType (t : String) : Bool :=
  t ∈ ["standard", "express", "overnight", "same_day"]

/-- The express-validator constraints on one manifest item:
nonempty trimmed name, integer quantity ≥ 1, weight ≥ 0.1 kg, category in
the closed enumeration. -/
def itemValid (it : RawItem) : Bool :=
  trimStr it.name ≠ "" && it.quantity ≥ 1 && it.weight ≥ (1 : Rat)/10 && validCategory it.category

/-- The create-shipment request body (the fields the route validates and
uses). -/
structure ShipmentRequest where
  description : String
  items : List RawItem
  pickupStreet : String
  pickupCity : String
  pickupState : String
  pickupZip : String
  deliveryStreet : String
  deliveryCity : String
  deliveryState : String
  deliveryZip : String
  serviceType : String
  requestedPickupDate : Nat
  requestedDeliveryDate : Nat
deriving DecidableEq, Repr

/-- The express-validator phase of `POST /api/shipments`. -/
def requestValid (r : ShipmentRequest) : Bool :=
  10 ≤ (trimStr r.description).length && (trimStr r.description).length ≤ 500 &&
  r.items ≠ [] && r.items.all itemValid &&
  trimStr r.pickupStreet ≠ "" && trimStr r.pickupCity ≠ "" &&
  trimStr r.pickupState ≠ "" && trimStr r.pickupZip ≠ "" &&
  trimStr r.deliveryStreet ≠ "" && trimStr r.deliveryCity ≠ "" &&
  trimStr r.deliveryState ≠ "" && trimStr r.deliveryZip ≠ "" &&
  validServiceType r.serviceType

/-- `totalWeight` accumulation of the route: `totalWeight += item.weight *
item.quantity` over the manifest. -/
def manifestWeight (items : List RawItem) : Rat :=
  items.foldl (fun t it => t + it.weight * (it.quantity : Rat)) 0

/-- `totalValue` accumulation of the route: added only when
`item.value && item.value.amount` is truthy (absent or zero amounts are
skipped). -/
def manifestValue (items : List RawItem) : Rat :=
  items.foldl (fun t it =>
    match it.valueAmount with
    | some v => if v = 0 then t else t + v * (it.quantity : Rat)
    | none => t) 0

/-- Error outcomes of the shipment routes. -/
inductive ShipErr where
  | validationErrors
  | pickupDateInPast
  | deliveryDateNotAfterPickup
  | notFound
  | invalidTransition (cur : ShipmentStatus) (requested : ShipmentStatus)
deriving DecidableEq, Repr

/-- The `pre('save')` hook on a new shipment document: append the initial
`pending` timeline entry. -/
def preSaveNewShipment (now : Nat) (s : Shipment) : Shipment :=
  { s with timeline := s.timeline ++
      [⟨.pending, now, none, some "Shipment request created", "system", none⟩] }

/-- `POST /api/shipments`: validation, date checks, total computation,
document construction (status defaults to `pending`, empty timeline) and
the pre-save hook. -/
def createShipment (now : Nat) (clientId : Nat) (r : ShipmentRequest) :
    Except ShipErr Shipment :=
  if ¬ requestValid r then .error .validationErrors
  else if r.requestedPickupDate < now then .error .pickupDateInPast
  else if r.requestedDeliveryDate ≤ r.requestedPickupDate then
    .error .deliveryDateNotAfterPickup
  else .ok (preSaveNewShipment now
    { client := clientId
      driver := none
      description := r.description
      items := r.items
      totalWeight := manifestWeight r.items
      totalValue := manifestValue r.items
      status := .pending
      timeline := []
      requestedPickupDate := r.requestedPickupDate
      requestedDeliveryDate := r.requestedDeliveryDate
      actualPickupDate := none
      actualDeliveryDate := none })

/-- The `validTransitions` adjacency table of `PUT /api/shipments/:id/status`. -/
def validTransitions : ShipmentStatus → List ShipmentStatus
  | .pending => [.assigned, .cancelled]
  | .assigned => [.picked, .cancelled]
  | .picked => [.packed, .processing, .failed]
  | .packed => [.processing, .in_transit]
  | .processing => [.in_transit, .failed]
  | .in_transit => [.out_for_delivery, .delivered, .failed]
  | .out_for_delivery => [.delivered, .failed, .returned]
  | .delivered => []
  | .failed => [.processing, .cancelled]
  | .returned => []
  | .cancelled => []

/-- The statuses the route's `body('status').isIn([...])` validator accepts
as a requested status: every status except `pending`. -/
def routeRequestableStatuses : List ShipmentStatus :=
  [.assigned, .picked, .packed, .processing, .in_transit, .out_for_delivery,
   .delivered, .failed, .returned, .cancelled]

/-- `PUT /api/shipments/:id/status` applied to the found shipment:
input validation, adjacency-table check, then `updateStatus`. -/
def updateShipmentStatus (now : Nat) (s : Shipment) (requested : ShipmentStatus)
    (location : Option String) (notes : Option String) (userType : String)
    (userId : Nat) : Except ShipErr Shipment :=
  if requested ∉ routeRequestableStatuses then .error .validationErrors
  else if requested ∉ validTransitions s.status then
    .error (.invalidTransition s.status requested)
  else .ok (s.updateStatus now requested location notes userType (some userId))

/-- The shipment document as stored after the status route runs: on any
error the route returns before `shipment.updateStatus` and `save`, so the
stored document is unchanged. -/
def storedAfterStatusUpdate (now : Nat) (s : Shipment) (requested : ShipmentStatus)
    (location : Option String) (notes : Option String) (userType : String)
    (userId : Nat) : Shipment :=
  match updateShipmentStatus now s requested location notes userType userId with
  | .ok s' => s'
  | .error _ => s

/-- Driver account status (`driverSchema.status`, the values the admin
routes set/filter on). -/
inductive DriverStatus where
  | pending
  | approved
  | rejected
  | suspended
  | terminated
deriving DecidableEq, Repr

/-- Driver KYC status (`driverSchema.kycStatus`). -/
inductive KycStatus where
  | pending
  | in_review
  | approved
  | rejected
deriving DecidableEq, Repr

/-- The driver fields the assignment route reads. -/
structure Driver where
  fullName : String
  status : DriverStatus
  kycStatus : KycStatus
deriving DecidableEq, Repr

/-- Error outcomes of `PUT /api/shipments/:id/assign`. -/
inductive AssignErr where
  | validationErrors
  | driverNotFound
  | driverNotEligible
  | shipmentNotFound
  | notPendingShipment
deriving DecidableEq, Repr

/-- `PUT /api/shipments/:id/assign`: look up the driver, check
`status === 'approved' && kycStatus === 'approved'`, look up the shipment,
check `status === 'pending'`, then set `shipment.driver` and run
`updateStatus('assigned', …)`. -/
def assignDriver (now : Nat) (driverLookup : Option Driver)
    (shipmentLookup : Option Shipment) (driverId : Nat) (adminId : Nat) :
    Except AssignErr Shipment :=
  match driverLookup with
  | none => .error .driverNotFound
  | some d =>
    if d.status ≠ .approved ∨ d.kycStatus ≠ .approved then
      .error .driverNotEligible
    else match shipmentLookup with
      | none => .error .shipmentNotFound
      | some s =>
        if s.status ≠ .pending then .error .notPendingShipment
        else .ok (({ s with driver := some driverId }).updateStatus now .assigned
          none (some ("Assigned to driver " ++ d.fullName)) "admin" (some adminId))

/-- The shipment document as stored after the assign route runs: on any
error the route returns before mutating, so the stored document is
unchanged. -/
def storedAfterAssign (now : Nat) (driverLookup : Option Driver) (s : Shipment)
    (driverId : Nat) (adminId : Nat) : Shipment :=
  match assignDriver now driverLookup (some s) driverId adminId with
  | .ok s' => s'
  | .error _ => s

/-- The closed payment status enumeration of `paymentSchema.status`. -/
inductive PaymentStatus where
  | pending
  | processing
  | completed
  | failed
  | cancelled
  | refunded
  | partially_refunded
deriving DecidableEq, Repr

/-- Status of one refund sub-document (`refunds.*.status`, default
`pending`). -/
inductive RefundStatus where
  | pending
  | processing
  | completed
  | failed
deriving DecidableEq, Repr

/-- Status of one partial-payment sub-document
(`partialPayments.*.status`, default `completed`). -/
inductive InstallmentStatus where
  | completed
  | failed
deriving DecidableEq, Repr

/-- One entry of `paymentSchema.timeline` (carries an optional amount for
partial payments/refunds). -/
structure PayTimelineEntry where
  status : PaymentStatus
  timestamp : Nat
  notes : Option String
  amount : Option Rat
  updatedBy : String
  updatedByUser : Option Nat
deriving DecidableEq, Repr

/-- One refund sub-document of `paymentSchema.refunds`. -/
structure Refund where
  refundId : String
  amount : Rat
  reason : String
  reasonDescription : Option String
  refundMethod : String
  status : RefundStatus
  processedBy : Option Nat
deriving DecidableEq, Repr

/-- One partial-payment sub-document of `paymentSchema.partialPayments`. -/
structure Installment where
  paymentId : String
  amount : Rat
  paidDate : Option Nat
  method : String
  transactionId : Option String
  status : InstallmentStatus
deriving DecidableEq, Repr

/-- The payment aggregate: the fields of `paymentSchema` the ledger logic
reads or writes (`amountTotal` is `amount.total`). -/
structure Payment where
  client : Nat
  shipment : Nat
  amountSubtotal : Rat
  amountTotal : Rat
  status : PaymentStatus
  timeline : List PayTimelineEntry
  paidDate : Option Nat
  terms : String
  refunds : List Refund
  partialPayments : List Installment
deriving DecidableEq, Repr

/-- The filter-and-reduce of the `totalRefunded` virtual:
`refunds.filter(status === 'completed').reduce((t, r) => t + r.amount, 0)`. -/
def completedRefundSum (rs : List Refund) : Rat :=
  (rs.filter (fun r => r.status = .completed)).foldl (fun t r => t + r.amount) 0

/-- The `totalRefunded` virtual: sum of the amounts of refunds whose
status is `completed`. -/
def Payment.totalRefunded (p : Payment) : Rat :=
  completedRefundSum p.refunds

/-- The filter-and-reduce inside the `remainingBalance` virtual:
`partialPayments.filter(status === 'completed').reduce((t, q) => t + q.amount, 0)`. -/
def completedPaidSum (qs : List Installment) : Rat :=
  (qs.filter (fun q => q.status = .completed)).foldl (fun t q => t + q.amount) 0

/-- The `remainingBalance` virtual: 0 when status is `completed`,
otherwise `amount.total` minus the sum of completed partial payments. -/
def Payment.remainingBalance (p : Payment) : Rat :=
  let totalPaid := completedPaidSum p.partialPayments
  if p.status = .completed then 0 else p.amountTotal - totalPaid

/-- `paymentSchema.methods.updateStatus`: set `status`, append a timeline
entry, stamp `paidDate` when the new status is `completed`. -/
def Payment.updateStatus (p : Payment) (now : Nat) (newStatus : PaymentStatus)
    (notes : Option String) (updatedBy : String) (updatedByUser : Option Nat)
    (amount : Option Rat) : Payment :=
  let p' := { p with
    status := newStatus,
    timeline := p.timeline ++
      [⟨newStatus, now, notes, amount, updatedBy, updatedByUser⟩] }
  if newStatus = .completed then { p' with paidDate := some now } else p'

/-- The refund request data the refund route passes to `addRefund`. -/
structure RefundData where
  amount : Rat
  reason : String
  reasonDescription : Option String
  refundMethod : String
  processedBy : Nat
deriving DecidableEq, Repr

/-- `paymentSchema.methods.addRefund`: push a refund (whose `status`
defaults to `pending`), then recompute the payment status from
`this.totalRefunded + refundData.amount` — `refunded` when that reaches
`amount.total`, else `partially_refunded` when it is positive. -/
def Payment.addRefund (p : Payment) (freshRefundId : String) (rd : RefundData) :
    Payment :=
  let p1 := { p with refunds := p.refunds ++
    [⟨freshRefundId, rd.amount, rd.reason, rd.reasonDescription, rd.refundMethod,
      .pending, some rd.processedBy⟩] }
  let totalRefunded := p1.totalRefunded + rd.amount
  if totalRefunded ≥ p1.amountTotal then { p1 with status := .refunded }
  else if totalRefunded > 0 then { p1 with status := .partially_refunded }
  else p1

/-- Refund reasons accepted by the refund route's validator. -/
def validRefundReason (r : String) : Bool :=
  r ∈ ["cancelled_shipment", "service_issue", "overcharge", "duplicate_payment",
       "client_request", "other"]

/-- Payment methods accepted by the partial-payment route's validator. -/
def validInstallmentMethod (m : String) : Bool :=
  m ∈ ["credit_card", "debit_card", "bank_transfer", "paypal", "cash", "check"]

/-- Payment terms accepted by the create-payment route's validator. -/
def validTerms (t : String) : Bool :=
  t ∈ ["immediate", "net_15", "net_30", "net_45", "net_60"]

/-- Error outcomes of the payment routes. -/
inductive PayErr where
  | validationErrors
  | shipmentNotFound
  | paymentNotFound
  | duplicatePayment
  | notCompletedPayment
  | refundExceedsBalance
  | amountExceedsBalance
deriving DecidableEq, Repr

/-- `POST /api/payments/:id/refund`: validation, `status === 'completed'`
check, available-balance check (`amount > amount.total - totalRefunded`),
then `addRefund` and save. -/
def processRefund (p : Payment) (freshRefundId : String) (amount : Rat)
    (reason : String) (reasonDescription : Option String)
    (refundMethod : Option String) (adminId : Nat) : Except PayErr Payment :=
  if ¬ (amount ≥ (1 : Rat)/100 && validRefundReason reason) then
    .error .validationErrors
  else if p.status ≠ .completed then .error .notCompletedPayment
  else if amount > p.amountTotal - p.totalRefunded then
    .error .refundExceedsBalance
  else .ok (p.addRefund freshRefundId
    ⟨amount, reason, reasonDescription, refundMethod.getD "original_method", adminId⟩)

/-- The payment document as stored after the refund route runs: on any
error the route returns before `addRefund` and `save`, so the stored
document is unchanged. -/
def storedAfterRefund (p : Payment) (freshRefundId : String) (amount : Rat)
    (reason : String) (reasonDescription : Option String)
    (refundMethod : Option String) (adminId : Nat) : Payment :=
  match processRefund p freshRefundId amount reason reasonDescription
      refundMethod adminId with
  | .ok p' => p'
  | .error _ => p

/-- `POST /api/payments/:id/partial`: validation, remaining-balance check,
push a `completed` partial-payment entry, then `updateStatus('completed')`
when the new remaining balance is ≤ 0 and `updateStatus('processing', …,
amount)` otherwise. -/
def recordInstallment (now : Nat) (p : Payment) (freshId : String) (amount : Rat)
    (method : String) (transactionId : Option String) (adminId : Nat) :
    Except PayErr Payment :=
  if ¬ (amount ≥ (1 : Rat)/100 && validInstallmentMethod method) then
    .error .validationErrors
  else
    let remainingBalance := p.remainingBalance
    if amount > remainingBalance then .error .amountExceedsBalance
    else
      let p1 := { p with partialPayments := p.partialPayments ++
        [(⟨freshId, amount, some now, method, transactionId, .completed⟩ : Installment)] }
      let newRemainingBalance := remainingBalance - amount
      if newRemainingBalance ≤ 0 then
        .ok (p1.updateStatus now .completed
          (some "Payment completed with partial payments") "admin" (some adminId) none)
      else
        .ok (p1.updateStatus now .processing
          (some "Partial payment received") "admin" (some adminId) (some amount))

/-- The payment document as stored after the partial-payment route runs:
on any error the route returns before mutating, so the stored document is
unchanged. -/
def storedAfterInstallment (now : Nat) (p : Payment) (freshId : String)
    (amount : Rat) (method : String) (transactionId : Option String)
    (adminId : Nat) : Payment :=
  match recordInstallment now p freshId amount method transactionId adminId with
  | .ok p' => p'
  | .error _ => p

/-- The client billing configuration the create-payment route reads
(`shipment.client.billingInfo?.paymentTerms`). -/
structure ClientInfo where
  paymentTerms : Option String
deriving DecidableEq, Repr

/-- The create-payment request body (the fields the route validates and
uses). -/
structure PaymentRequest where
  shipmentId : Nat
  amountSubtotal : Rat
  amountTotal : Rat
  dueDate : Nat
  terms : Option String
deriving DecidableEq, Repr

/-- The `pre('save')` hook on a new payment document: append the initial
`pending` timeline entry. -/
def preSaveNewPayment (now : Nat) (p : Payment) : Payment :=
  { p with timeline := p.timeline ++
      [⟨.pending, now, some "Payment record created", none, "system", none⟩] }

/-- Validation phase of `POST /api/payments`. -/
def paymentRequestValid (r : PaymentRequest) : Bool :=
  r.amountSubtotal ≥ 0 && r.amountTotal ≥ 0 &&
  (match r.terms with
   | some t => validTerms t
   | none => true)

/-- `POST /api/payments` applied to the persistent state: shipment lookup,
duplicate-payment lookup (`Payment.findOne({ shipment })`), terms cascade
`terms || client.billingInfo?.paymentTerms || 'net_30'`, document
construction (status defaults to `pending`) and the pre-save hook.
`payments` is the stored payment collection. -/
def createPayment (now : Nat) (shipmentLookup : Option (Shipment × ClientInfo))
    (payments : List Payment) (r : PaymentRequest) : Except PayErr Payment :=
  if ¬ paymentRequestValid r then .error .validationErrors
  else match shipmentLookup with
  | none => .error .shipmentNotFound
  | some (sh, clientInfo) =>
    if payments.any (fun q => q.shipment = r.shipmentId) then
      .error .duplicatePayment
    else .ok (preSaveNewPayment now
      { client := sh.client
        shipment := r.shipmentId
        amountSubtotal := r.amountSubtotal
        amountTotal := r.amountTotal
        status := .pending
        timeline := []
        paidDate := none
        terms := (r.terms.getD (clientInfo.paymentTerms.getD "net_30"))
        refunds := []
        partialPayments := [] })

/-- The payment collection as stored after the create route runs: the new
document is appended on success, nothing changes on failure. -/
def paymentsAfterCreate (now : Nat) (shipmentLookup : Option (Shipment × ClientInfo))
    (payments : List Payment) (r : PaymentRequest) : List Payment :=
  match createPayment now shipmentLookup payments r with
  | .ok p => payments ++ [p]
  | .error _ => payments

/-- Admin account status (`adminSchema.status`). -/
inductive AdminStatus where
  | active
  | inactive
  | suspended
  | terminated
deriving DecidableEq, Repr

/-- One entry of `adminSchema.activeSessions`. -/
structure Session where
  sessionId : String
  loginTime : Nat
deriving DecidableEq, Repr

/-- The admin fields the login flow reads or writes. `password` stands for
the stored hash, with `comparePassword` modelled as equality of the
candidate with it (the bcrypt oracle). -/
structure Admin where
  password : String
  status : AdminStatus
  loginCount : Nat
  lastAttempt : Option Nat
  lockedUntil : Option Nat
  lastLogin : Option Nat
  totalLogins : Nat
  activeSessions : List Session
deriving DecidableEq, Repr

/-- 30 minutes in milliseconds, the lock duration of `handleLoginAttempt`. -/
def lockMillis : Nat := 30 * 60 * 1000

/-- The `isLocked` virtual: `lockedUntil && lockedUntil > Date.now()`. -/
def Admin.isLocked (a : Admin) (now : Nat) : Bool :=
  match a.lockedUntil with
  | some t => t > now
  | none => false

/-- `adminSchema.methods.handleLoginAttempt`: on success reset the
counter, clear the lock, stamp `lastLogin`, push a session and keep only
the last 5; on failure increment the counter, stamp `lastAttempt`, and
when the counter reaches 5 set `lockedUntil` 30 minutes from now. -/
def Admin.handleLoginAttempt (a : Admin) (now : Nat) (success : Bool)
    (freshSessionId : String) : Admin :=
  if success then
    let a1 := { a with
      loginCount := 0
      lockedUntil := none
      lastLogin := some now
      totalLogins := a.totalLogins + 1
      activeSessions := a.activeSessions ++ [⟨freshSessionId, now⟩] }
    if a1.activeSessions.length > 5 then
      { a1 with activeSessions :=
          a1.activeSessions.drop (a1.activeSessions.length - 5) }
    else a1
  else
    let a1 := { a with
      loginCount := a.loginCount + 1
      lastAttempt := some now }
    if a1.loginCount ≥ 5 then
      { a1 with lockedUntil := some (now + lockMillis) }
    else a1

/-- Outcomes of the login route. -/
inductive LoginOutcome where
  | invalidCredentials
  | accountInactive
  | accountLocked
  | loggedIn
deriving DecidableEq, Repr

/-- The admin branch of `POST /api/auth/login` applied to the found admin:
password comparison first (a mismatch records a failed attempt and
returns the uniform invalid-credentials error), then the active-status
check, then the `isLocked` check, then the successful-attempt bookkeeping.
Returns the outcome and the admin document as stored afterwards. -/
def adminLogin (a : Admin) (now : Nat) (candidatePassword : String)
    (freshSessionId : String) : LoginOutcome × Admin :=
  if candidatePassword ≠ a.password then
    (.invalidCredentials, a.handleLoginAttempt now false freshSessionId)
  else if a.status = .suspended ∨ a.status = .inactive ∨ a.status = .terminated then
    (.accountInactive, a)
  else if a.isLocked now then
    (.accountLocked, a)
  else
    (.loggedIn, a.handleLoginAttempt now true freshSessionId)

/-! ### The status/timeline coherence invariant (shipments) -/

/-- The §8 invariant: the timeline is non-empty and `status` equals the
status of the last timeline entry. -/
def statusTimelineInv (s : Shipment) : Prop :=
  s.timeline ≠ [] ∧ s.timeline.getLast?.map TimelineEntry.status = some s.status

instance (s : Shipment) : Decidable (statusTimelineInv s) := by
  unfold statusTimelineInv; infer_instance

theorem updateStatus_status (s : Shipment) (now : Nat) (st : ShipmentStatus)
    (loc notes : Option String) (ub : String) (uu : Option Nat) :
    (s.updateStatus now st loc notes ub uu).status = st := by
  unfold Shipment.updateStatus
  split <;> try split
  all_goals rfl

theorem updateStatus_timeline (s : Shipment) (now : Nat) (st : ShipmentStatus)
    (loc notes : Option String) (ub : String) (uu : Option Nat) :
    (s.updateStatus now st loc notes ub uu).timeline =
      s.timeline ++ [⟨st, now, loc, notes, ub, uu⟩] := by
  unfold Shipment.updateStatus
  split <;> try split
  all_goals rfl

theorem updateStatus_inv (s : Shipment) (now : Nat) (st : ShipmentStatus)
    (loc notes : Option String) (ub : String) (uu : Option Nat) :
    statusTimelineInv (s.updateStatus now st loc notes ub uu) := by
  constructor
  · rw [updateStatus_timeline]; simp
  · rw [updateStatus_timeline, updateStatus_status, List.getLast?_concat]
    rfl

theorem createShipment_ok_inv (now clientId : Nat) (r : ShipmentRequest)
    (s : Shipment) (h : createShipment now clientId r = .ok s) :
    statusTimelineInv s := by
  unfold createShipment at h
  split at h
  · exact absurd h (by simp)
  · split at h
    · exact absurd h (by simp)
    · split at h
      · exact absurd h (by simp)
      · cases h
        constructor
        · simp [preSaveNewShipment]
        · simp [preSaveNewShipment, List.getLast?_concat]

theorem updateShipmentStatus_ok_inv (now : Nat) (s : Shipment)
    (requested : ShipmentStatus) (loc notes : Option String) (ut : String)
    (uid : Nat) (s' : Shipment)
    (h : updateShipmentStatus now s requested loc notes ut uid = .ok s') :
    statusTimelineInv s' := by
  unfold updateShipmentStatus at h
  split at h
  · exact absurd h (by simp)
  · split at h
    · exact absurd h (by simp)
    · cases h
      exact updateStatus_inv ..

theorem assignDriver_ok_inv (now : Nat) (d? : Option Driver) (s? : Option Shipment)
    (driverId adminId : Nat) (s' : Shipment)
    (h : assignDriver now d? s? driverId adminId = .ok s') :
    statusTimelineInv s' := by
  cases d? with
  | none => simp [assignDriver] at h
  | some d =>
    cases s? with
    | none =>
      simp only [assignDriver] at h
      split at h <;> simp_all
    | some s =>
      simp only [assignDriver] at h
      by_cases hd : d.status ≠ .approved ∨ d.kycStatus ≠ .approved
      · rw [if_pos hd] at h; exact absurd h (by simp)
      · rw [if_neg hd] at h
        by_cases hs : s.status ≠ .pending
        · rw [if_pos hs] at h; exact absurd h (by simp)
        · rw [if_neg hs] at h
          cases h
          exact updateStatus_inv ..

/-- C1: every shipment produced by the creation route, the status-update
route or the driver-assignment route satisfies the coherence invariant:
its timeline is non-empty and its `status` field equals the status of the
last timeline entry (creation always appends the initial `pending` entry,
and `updateStatus` appends one entry carrying the new status). -/
theorem shipment_status_matches_last_timeline_entry :
    (∀ now clientId r s, createShipment now clientId r = .ok s →
       statusTimelineInv s ∧ s.status = .pending) ∧
    (∀ now s requested loc notes ut uid s',
       updateShipmentStatus now s requested loc notes ut uid = .ok s' →
       statusTimelineInv s') ∧
    (∀ now d? s? driverId adminId s',
       assignDriver now d? s? driverId adminId = .ok s' →
       statusTimelineInv s') := by
  refine ⟨fun now clientId r s h => ⟨createShipment_ok_inv now clientId r s h, ?_⟩,
    fun _ _ _ _ _ _ _ _ h => updateShipmentStatus_ok_inv _ _ _ _ _ _ _ _ h,
    fun _ _ _ _ _ _ h => assignDriver_ok_inv _ _ _ _ _ _ h⟩
  unfold createShipment at h
  split at h
  · exact absurd h (by simp)
  · split at h
    · exact absurd h (by simp)
    · split at h
      · exact absurd h (by simp)
      · cases h; rfl

/-- A sample manifest item: quantity 2, weight 5 kg. -/
def sampleItem : RawItem :=
  ⟨"Box of parts", 2, 5, some 20, "Electronics"⟩

/-- A sample valid create-shipment request (pickup at time 1000, delivery
at 4000). -/
def sampleRequest : ShipmentRequest :=
  ⟨"Two boxes of electronic parts", [sampleItem],
   "1 Main St", "Springfield", "IL", "62701",
   "2 Oak Ave", "Chicago", "IL", "60601",
   "standard", 1000, 4000⟩

theorem sampleRequest_valid : requestValid sampleRequest = true := by
  simp [requestValid, itemValid, sampleRequest, sampleItem, validCategory,
    validServiceType, trimStr]
  norm_num
  decide

/-- The shipment the creation route produces from `sampleRequest` at time
500 for client 7. -/
def sampleShipment : Shipment :=
  { client := 7
    driver := none
    description := "Two boxes of electronic parts"
    items := [sampleItem]
    totalWeight := 10
    totalValue := 40
    status := .pending
    timeline := [⟨.pending, 500, none, some "Shipment request created", "system", none⟩]
    requestedPickupDate := 1000
    requestedDeliveryDate := 4000
    actualPickupDate := none
    actualDeliveryDate := none }

theorem createShipment_sample :
    createShipment 500 7 sampleRequest = .ok sampleShipment := by
  unfold createShipment
  rw [if_neg (by simp [sampleRequest_valid]), if_neg (by decide), if_neg (by decide)]
  unfold preSaveNewShipment sampleShipment
  norm_num [manifestWeight, manifestValue, sampleRequest, sampleItem]

/-- Witness for C1: the sample creation succeeds and the result satisfies
the invariant. -/
theorem shipment_status_matches_last_timeline_entry_witness :
    statusTimelineInv sampleShipment :=
  (shipment_status_matches_last_timeline_entry.1 500 7 sampleRequest
    sampleShipment createShipment_sample).1

/-! ### C2: rejection of transitions outside the adjacency table -/

theorem mem_routeRequestableStatuses (st : ShipmentStatus) :
    st ∈ routeRequestableStatuses ↔ st ≠ .pending := by
  cases st <;> decide

/-- A sample shipment in the terminal `delivered` state. -/
def deliveredShipment : Shipment :=
  { client := 7
    driver := some 3
    description := "Two boxes of electronic parts"
    items := [sampleItem]
    totalWeight := 10
    totalValue := 40
    status := .delivered
    timeline := [⟨.pending, 10, none, some "Shipment request created", "system", none⟩,
                 ⟨.delivered, 20, none, none, "driver", some 3⟩]
    requestedPickupDate := 1000
    requestedDeliveryDate := 4000
    actualPickupDate := none
    actualDeliveryDate := some 20 }

/-- Counterexample to C2 as stated: requesting `pending` from `delivered`
is a pair outside the adjacency table, yet the route rejects it in its
input-validation phase with a generic validation error, not with the
transition error naming the current and requested status. -/
theorem pending_request_fails_validation_not_transition :
    ShipmentStatus.pending ∉ validTransitions ShipmentStatus.delivered ∧
    updateShipmentStatus 30 deliveredShipment .pending none none "admin" 1
      = .error .validationErrors ∧
    (Except.error ShipErr.validationErrors : Except ShipErr Shipment)
      ≠ .error (.invalidTransition .delivered .pending) := by
  refine ⟨by decide, ?_, by decide⟩
  unfold updateShipmentStatus
  rw [if_pos (by decide)]

/-- C2 (amended): for every pair `(from, to)` outside the §4.1 adjacency
table, the status route rejects the request and leaves the stored shipment
(timeline and status) unchanged; when `to ≠ pending` the rejection is the
invalid-transition error naming the current and requested status, while
`to = pending` (never a legal target) is caught earlier by the route's
input validation with a generic validation error. -/
theorem invalid_transition_rejected (now : Nat) (s : Shipment)
    (requested : ShipmentStatus) (loc notes : Option String) (ut : String)
    (uid : Nat) (h : requested ∉ validTransitions s.status) :
    (requested ≠ .pending →
      updateShipmentStatus now s requested loc notes ut uid
        = .error (.invalidTransition s.status requested)) ∧
    (requested = .pending →
      updateShipmentStatus now s requested loc notes ut uid
        = .error .validationErrors) ∧
    storedAfterStatusUpdate now s requested loc notes ut uid = s := by
  have hmain : (requested ≠ .pending →
      updateShipmentStatus now s requested loc notes ut uid
        = .error (.invalidTransition s.status requested)) ∧
      (requested = .pending →
      updateShipmentStatus now s requested loc notes ut uid
        = .error .validationErrors) := by
    constructor
    · intro hne
      unfold updateShipmentStatus
      rw [if_neg (by simp [mem_routeRequestableStatuses, hne]), if_pos h]
    · intro hpend
      unfold updateShipmentStatus
      rw [if_pos (by simp [mem_routeRequestableStatuses, hpend])]
  refine ⟨hmain.1, hmain.2, ?_⟩
  unfold storedAfterStatusUpdate
  by_cases hpend : requested = .pending
  · rw [hmain.2 hpend]
  · rw [hmain.1 hpend]

/-- Witness for the amended C2 at the §8 scenario `delivered → in_transit`:
the route fails with the transition error naming both statuses and the
stored shipment is unchanged. -/
theorem invalid_transition_rejected_witness :
    updateShipmentStatus 30 deliveredShipment .in_transit none none "admin" 1
      = .error (.invalidTransition .delivered .in_transit) ∧
    storedAfterStatusUpdate 30 deliveredShipment .in_transit none none "admin" 1
      = deliveredShipment :=
  have h := invalid_transition_rejected 30 deliveredShipment .in_transit none none
    "admin" 1 (by decide)
  ⟨h.1 (by decide), h.2.2⟩

/-! ### C3: what a fresh `addRefund` call does to the payment status -/

theorem completedRefundSum_append (rs : List Refund) (r : Refund) :
    completedRefundSum (rs ++ [r]) =
      completedRefundSum rs + (if r.status = .completed then r.amount else 0) := by
  unfold completedRefundSum
  rw [List.filter_append]
  by_cases h : r.status = .completed
  · simp [h, List.foldl_append]
  · simp [h]

/-- The refund pushed by `addRefund` has default status `pending`, so the
`totalRefunded` virtual read after the push still sums only the previously
completed refunds. -/
theorem totalRefunded_after_push (p : Payment) (fid : String) (rd : RefundData) :
    completedRefundSum (p.refunds ++
      [⟨fid, rd.amount, rd.reason, rd.reasonDescription, rd.refundMethod,
        .pending, some rd.processedBy⟩]) = p.totalRefunded := by
  rw [completedRefundSum_append]
  simp [Payment.totalRefunded]

/-- A sample fully paid payment of total 100 with no refunds. -/
def completedPayment : Payment :=
  { client := 7
    shipment := 11
    amountSubtotal := 100
    amountTotal := 100
    status := .completed
    timeline := [⟨.pending, 10, some "Payment record created", none, "system", none⟩,
                 ⟨.completed, 20, none, none, "admin", some 1⟩]
    paidDate := some 20
    terms := "net_30"
    refunds := []
    partialPayments := [] }

/-- A sample refund request of 30. -/
def sampleRefundData : RefundData :=
  ⟨30, "client_request", none, "original_method", 9⟩

/-- Unfolding equation for `addRefund`: the let-bound intermediate
document is inlined and the post-push `totalRefunded` read is rewritten to
the pre-call completed-refund total (the pushed refund is `pending`). -/
theorem addRefund_unfold (p : Payment) (fid : String) (rd : RefundData) :
    p.addRefund fid rd =
      (if p.totalRefunded + rd.amount ≥ p.amountTotal then
        { p with
          refunds := p.refunds ++
            [⟨fid, rd.amount, rd.reason, rd.reasonDescription, rd.refundMethod,
              .pending, some rd.processedBy⟩],
          status := .refunded }
      else if 0 < p.totalRefunded + rd.amount then
        { p with
          refunds := p.refunds ++
            [⟨fid, rd.amount, rd.reason, rd.reasonDescription, rd.refundMethod,
              .pending, some rd.processedBy⟩],
          status := .partially_refunded }
      else
        { p with
          refunds := p.refunds ++
            [⟨fid, rd.amount, rd.reason, rd.reasonDescription, rd.refundMethod,
              .pending, some rd.processedBy⟩] }) := by
  have hpush : Payment.totalRefunded { p with refunds := p.refunds ++
      [⟨fid, rd.amount, rd.reason, rd.reasonDescription, rd.refundMethod,
        .pending, some rd.processedBy⟩] } = p.totalRefunded := by
    unfold Payment.totalRefunded
    simpa using totalRefunded_after_push p fid rd
  by_cases h1 : p.totalRefunded + rd.amount ≥ p.amountTotal
  · simp [Payment.addRefund, hpush, h1]
  · by_cases h2 : 0 < p.totalRefunded + rd.amount
    · simp [Payment.addRefund, hpush, h1, h2]
    · simp [Payment.addRefund, hpush, h1, h2]

/-- Counterexample to C3 as stated: on a completed payment of total 100
with no prior refunds, one `addRefund` call of 30 appends a refund whose
status is `pending`, yet the call itself already flips the payment status
from `completed` to `partially_refunded` — the recompute adds the fresh
(still pending) refund's amount to `totalRefunded`. -/
theorem addRefund_changes_status_counterexample :
    (completedPayment.addRefund "REF1" sampleRefundData).refunds.map Refund.status
      = [.pending] ∧
    completedPayment.status = .completed ∧
    (completedPayment.addRefund "REF1" sampleRefundData).status = .partially_refunded ∧
    (completedPayment.addRefund "REF1" sampleRefundData).status
      ≠ completedPayment.status := by
  have ht : completedPayment.totalRefunded = 0 := by
    simp [Payment.totalRefunded, completedRefundSum, completedPayment]
  rw [addRefund_unfold, ht]
  rw [if_neg (by norm_num [completedPayment, sampleRefundData]),
    if_pos (by norm_num [sampleRefundData])]
  refine ⟨by simp [completedPayment], rfl, rfl, by decide⟩

/-- C3 (amended): `addRefund` appends a refund entry that starts with
status `pending` and leaves the timeline and `amount.total` untouched, but
it recomputes the payment status from the completed-refund total PLUS the
freshly appended refund's amount: `refunded` when that sum reaches
`amount.total`, else `partially_refunded` when it is positive, else
unchanged — so a fresh call with a positive amount does itself flip the
status, without waiting for the refund to be marked completed. -/
theorem addRefund_appends_pending_and_recomputes (p : Payment) (fid : String)
    (rd : RefundData) :
    (p.addRefund fid rd).refunds = p.refunds ++
      [⟨fid, rd.amount, rd.reason, rd.reasonDescription, rd.refundMethod,
        .pending, some rd.processedBy⟩] ∧
    (p.addRefund fid rd).timeline = p.timeline ∧
    (p.addRefund fid rd).amountTotal = p.amountTotal ∧
    (p.addRefund fid rd).status =
      (if p.totalRefunded + rd.amount ≥ p.amountTotal then .refunded
       else if 0 < p.totalRefunded + rd.amount then .partially_refunded
       else p.status) := by
  rw [addRefund_unfold]
  by_cases h1 : p.totalRefunded + rd.amount ≥ p.amountTotal
  · simp [h1]
  · by_cases h2 : 0 < p.totalRefunded + rd.amount
    · simp [h1, h2]
    · simp [h1, h2]

/-! ### C4: recording partial payments -/

theorem completedPaidSum_append (qs : List Installment) (e : Installment) :
    completedPaidSum (qs ++ [e]) =
      completedPaidSum qs + (if e.status = .completed then e.amount else 0) := by
  unfold completedPaidSum
  rw [List.filter_append]
  by_cases h : e.status = .completed
  · simp [h, List.foldl_append]
  · simp [h]

/-- Unfolding equation for the payment `updateStatus` method. -/
theorem payment_updateStatus_unfold (p : Payment) (now : Nat) (st : PaymentStatus)
    (notes : Option String) (ub : String) (uu : Option Nat) (amt : Option Rat) :
    p.updateStatus now st notes ub uu amt =
      (if st = .completed then
        { p with
          status := st,
          timeline := p.timeline ++ [⟨st, now, notes, amt, ub, uu⟩],
          paidDate := some now }
      else
        { p with
          status := st,
          timeline := p.timeline ++ [⟨st, now, notes, amt, ub, uu⟩] }) := by
  by_cases h : st = .completed <;> simp [Payment.updateStatus, h]

/-- Unfolding equation for the partial-payment route. -/
theorem recordInstallment_unfold (now : Nat) (p : Payment) (fid : String)
    (amount : Rat) (method : String) (txn : Option String) (adminId : Nat) :
    recordInstallment now p fid amount method txn adminId =
      (if ¬ (amount ≥ (1 : Rat)/100 && validInstallmentMethod method) then
        .error .validationErrors
      else if amount > p.remainingBalance then .error .amountExceedsBalance
      else if p.remainingBalance - amount ≤ 0 then
        .ok (({ p with partialPayments := p.partialPayments ++
            [(⟨fid, amount, some now, method, txn, .completed⟩ : Installment)] }).updateStatus now
          .completed (some "Payment completed with partial payments") "admin"
          (some adminId) none)
      else
        .ok (({ p with partialPayments := p.partialPayments ++
            [(⟨fid, amount, some now, method, txn, .completed⟩ : Installment)] }).updateStatus now
          .processing (some "Partial payment received") "admin"
          (some adminId) (some amount))) := by
  simp only [recordInstallment]

/-- C4: with a request passing input validation, recording a partial
payment of `amount` fails with the insufficient-balance error and changes
nothing when `amount` exceeds `remainingBalance`; otherwise it appends a
`completed` partial-payment entry, and either completes the payment
(stamping `paidDate`, balance forced to 0) when the new remaining balance
is ≤ 0, or moves it to `processing` with the amount recorded in the
appended timeline entry and the balance reduced by `amount`. -/
theorem partial_payment_spec (now : Nat) (p : Payment) (fid : String)
    (amount : Rat) (method : String) (txn : Option String) (adminId : Nat)
    (hamt : (1 : Rat)/100 ≤ amount) (hmethod : validInstallmentMethod method = true) :
    (p.remainingBalance < amount →
       recordInstallment now p fid amount method txn adminId
         = .error .amountExceedsBalance ∧
       storedAfterInstallment now p fid amount method txn adminId = p) ∧
    (amount ≤ p.remainingBalance →
       ∃ p', recordInstallment now p fid amount method txn adminId = .ok p' ∧
         p'.partialPayments = p.partialPayments ++
           [(⟨fid, amount, some now, method, txn, .completed⟩ : Installment)] ∧
         p'.timeline.length = p.timeline.length + 1 ∧
         (p.remainingBalance - amount ≤ 0 →
            p'.status = .completed ∧ p'.paidDate = some now ∧
            p'.remainingBalance = 0) ∧
         (0 < p.remainingBalance - amount →
            p'.status = .processing ∧
            p'.timeline.getLast?.map PayTimelineEntry.amount = some (some amount) ∧
            p'.remainingBalance = p.remainingBalance - amount)) := by
  have hval : (amount ≥ (1 : Rat)/100 && validInstallmentMethod method) = true := by
    rw [Bool.and_eq_true, decide_eq_true_eq]
    exact ⟨hamt, hmethod⟩
  constructor
  · intro hgt
    have herr : recordInstallment now p fid amount method txn adminId
        = .error .amountExceedsBalance := by
      rw [recordInstallment_unfold, if_neg (not_not_intro hval), if_pos hgt]
    exact ⟨herr, by unfold storedAfterInstallment; rw [herr]⟩
  · intro hle
    rw [recordInstallment_unfold, if_neg (not_not_intro hval),
      if_neg (not_lt.mpr hle)]
    by_cases hz : p.remainingBalance - amount ≤ 0
    · rw [if_pos hz]
      refine ⟨_, rfl, ?_, ?_, fun _ => ⟨?_, ?_, ?_⟩, fun hpos => absurd hpos (not_lt.mpr hz)⟩
      · rw [payment_updateStatus_unfold]; simp
      · rw [payment_updateStatus_unfold]; simp
      · rw [payment_updateStatus_unfold]; simp
      · rw [payment_updateStatus_unfold]; simp
      · rw [payment_updateStatus_unfold]; simp [Payment.remainingBalance]
    · rw [if_neg hz]
      have hstat : p.status ≠ .completed := by
        intro hc
        have : p.remainingBalance = 0 := by simp [Payment.remainingBalance, hc]
        rw [this] at hz
        have : amount ≤ 0 := by linarith [not_le.mp hz]
        linarith
      refine ⟨_, rfl, ?_, ?_, fun hle0 => absurd hle0 hz, fun _ => ⟨?_, ?_, ?_⟩⟩
      · rw [payment_updateStatus_unfold]; simp
      · rw [payment_updateStatus_unfold]; simp
      · rw [payment_updateStatus_unfold]; simp
      · rw [payment_updateStatus_unfold]
        simp [List.getLast?_concat]
      · rw [payment_updateStatus_unfold]
        simp only [if_neg (by decide : ¬ (PaymentStatus.processing = .completed))]
        simp [Payment.remainingBalance, completedPaidSum_append, hstat]
        ring

/-- A sample unpaid payment of total 100. -/
def pendingPayment : Payment :=
  { client := 7
    shipment := 11
    amountSubtotal := 100
    amountTotal := 100
    status := .pending
    timeline := [⟨.pending, 10, some "Payment record created", none, "system", none⟩]
    paidDate := none
    terms := "net_30"
    refunds := []
    partialPayments := [] }

/-- The stored payment after a partial payment of 60 on `pendingPayment`. -/
def installmentStep1 : Payment :=
  storedAfterInstallment 50 pendingPayment "PAR1" 60 "cash" none 1

/-- The stored payment after a further partial payment of 40. -/
def installmentStep2 : Payment :=
  storedAfterInstallment 60 installmentStep1 "PAR2" 40 "cash" none 1

/-- Witness for C4, the §8 scenario: total 100, partial 60 →
`processing` with balance 40; then partial 40 → `completed`, balance 0,
`paidDate` stamped. -/
theorem partial_payment_spec_witness :
    recordInstallment 50 pendingPayment "PAR1" 60 "cash" none 1
      = .ok installmentStep1 ∧
    installmentStep1.status = .processing ∧
    installmentStep1.remainingBalance = 40 ∧
    recordInstallment 60 installmentStep1 "PAR2" 40 "cash" none 1
      = .ok installmentStep2 ∧
    installmentStep2.status = .completed ∧
    installmentStep2.remainingBalance = 0 ∧
    installmentStep2.paidDate = some 60 := by
  have hrb : pendingPayment.remainingBalance = 100 := by
    simp [Payment.remainingBalance, completedPaidSum, pendingPayment]
  obtain ⟨p1, hok1, -, -, -, hproc⟩ :=
    (partial_payment_spec 50 pendingPayment "PAR1" 60 "cash" none 1
      (by norm_num) (by decide)).2 (by rw [hrb]; norm_num)
  obtain ⟨hst1, -, hrb1⟩ := hproc (by rw [hrb]; norm_num)
  have hstep1 : installmentStep1 = p1 := by
    unfold installmentStep1 storedAfterInstallment
    rw [hok1]
  have hrb1' : installmentStep1.remainingBalance = 40 := by
    rw [hstep1, hrb1, hrb]; norm_num
  obtain ⟨p2, hok2, -, -, hcomp, -⟩ :=
    (partial_payment_spec 60 installmentStep1 "PAR2" 40 "cash" none 1
      (by norm_num) (by decide)).2 (by first | (rw [hrb1']; norm_num) | rw [hrb1'])
  obtain ⟨hst2, hpd2, hrb2⟩ := hcomp (by first | (rw [hrb1']; norm_num) | rw [hrb1'])
  have hstep2 : installmentStep2 = p2 := by
    unfold installmentStep2 storedAfterInstallment
    rw [hok2]
  refine ⟨by rw [hstep1]; exact hok1, by rw [hstep1]; exact hst1, hrb1',
    by rw [hstep2]; exact hok2, by rw [hstep2]; exact hst2,
    by rw [hstep2]; exact hrb2, by rw [hstep2]; exact hpd2⟩

/-! ### C5: the refund acceptance guard -/

theorem addRefund_refunds (p : Payment) (fid : String) (rd : RefundData) :
    (p.addRefund fid rd).refunds = p.refunds ++
      [⟨fid, rd.amount, rd.reason, rd.reasonDescription, rd.refundMethod,
        .pending, some rd.processedBy⟩] := by
  rw [addRefund_unfold]
  split <;> try split
  all_goals rfl

theorem addRefund_amountTotal (p : Payment) (fid : String) (rd : RefundData) :
    (p.addRefund fid rd).amountTotal = p.amountTotal := by
  rw [addRefund_unfold]
  split <;> try split
  all_goals rfl

theorem addRefund_totalRefunded (p : Payment) (fid : String) (rd : RefundData) :
    (p.addRefund fid rd).totalRefunded = p.totalRefunded := by
  unfold Payment.totalRefunded
  rw [addRefund_refunds, completedRefundSum_append]
  simp [Payment.totalRefunded]

/-- C5: the refund route accepts a request only on a `completed` payment
with `amount` within the available balance; an excessive request fails
with the insufficient-balance error and leaves the payment (its refunds
list included) unchanged; an accepted request appends only a `pending`
refund, so the completed-refund total and its bound by `amount.total` are
preserved, and a freshly created payment starts with completed-refund
total 0. -/
theorem refund_guard_spec :
    (∀ p fid amount reason rdesc rmethod adminId p',
       processRefund p fid amount reason rdesc rmethod adminId = .ok p' →
       p.status = .completed ∧ amount ≤ p.amountTotal - p.totalRefunded) ∧
    (∀ p fid amount reason rdesc rmethod adminId,
       (1 : Rat)/100 ≤ amount → validRefundReason reason = true →
       p.status = .completed → p.amountTotal - p.totalRefunded < amount →
       processRefund p fid amount reason rdesc rmethod adminId
         = .error .refundExceedsBalance ∧
       storedAfterRefund p fid amount reason rdesc rmethod adminId = p) ∧
    (∀ p fid amount reason rdesc rmethod adminId p',
       processRefund p fid amount reason rdesc rmethod adminId = .ok p' →
       p'.totalRefunded = p.totalRefunded ∧ p'.amountTotal = p.amountTotal ∧
       (p.totalRefunded ≤ p.amountTotal → p'.totalRefunded ≤ p'.amountTotal)) ∧
    (∀ now lookup payments r p, createPayment now lookup payments r = .ok p →
       p.totalRefunded = 0) := by
  have hok : ∀ p fid amount reason rdesc rmethod adminId p',
      processRefund p fid amount reason rdesc rmethod adminId = .ok p' →
      (p.status = .completed ∧ amount ≤ p.amountTotal - p.totalRefunded) ∧
      p' = p.addRefund fid
        ⟨amount, reason, rdesc, rmethod.getD "original_method", adminId⟩ := by
    intro p fid amount reason rdesc rmethod adminId p' h
    unfold processRefund at h
    split at h
    · exact absurd h (by simp)
    · split at h
      · exact absurd h (by simp)
      · split at h
        · exact absurd h (by simp)
        · rename_i h1 h2 h3
          exact ⟨⟨not_not.mp h2, not_lt.mp h3⟩, (Except.ok.inj h).symm⟩
  refine ⟨fun p fid amount reason rdesc rmethod adminId p' h =>
      (hok p fid amount reason rdesc rmethod adminId p' h).1, ?_, ?_, ?_⟩
  · intro p fid amount reason rdesc rmethod adminId hamt hreason hstat hexceed
    have hval : (amount ≥ (1 : Rat)/100 && validRefundReason reason) = true := by
      rw [Bool.and_eq_true, decide_eq_true_eq]
      exact ⟨hamt, hreason⟩
    have herr : processRefund p fid amount reason rdesc rmethod adminId
        = .error .refundExceedsBalance := by
      unfold processRefund
      rw [if_neg (not_not_intro hval), if_neg (not_not_intro hstat), if_pos hexceed]
    exact ⟨herr, by unfold storedAfterRefund; rw [herr]⟩
  · intro p fid amount reason rdesc rmethod adminId p' h
    obtain ⟨-, hp'⟩ := hok p fid amount reason rdesc rmethod adminId p' h
    subst hp'
    rw [addRefund_totalRefunded, addRefund_amountTotal]
    exact ⟨rfl, rfl, fun hb => hb⟩
  · intro now lookup payments r p h
    cases lookup with
    | none =>
      unfold createPayment at h
      split at h <;> simp_all
    | some x =>
      obtain ⟨sh, ci⟩ := x
      unfold createPayment at h
      split at h
      · exact absurd h (by simp)
      · split at h
        · exact absurd h (by simp)
        · split at h
          · exact absurd h (by simp)
          · rw [← Except.ok.inj h]
            simp [preSaveNewPayment, Payment.totalRefunded, completedRefundSum]

/-- Witness for C5: on the sample completed payment of total 100 with no
refunds, a refund request of 150 exceeds the available balance, fails with
the insufficient-balance error, and leaves the payment unchanged. -/
theorem refund_guard_spec_witness :
    processRefund completedPayment "REF9" 150 "client_request" none none 9
      = .error .refundExceedsBalance ∧
    storedAfterRefund completedPayment "REF9" 150 "client_request" none none 9
      = completedPayment := by
  have ht : completedPayment.totalRefunded = 0 := by
    simp [Payment.totalRefunded, completedRefundSum, completedPayment]
  exact refund_guard_spec.2.1 completedPayment "REF9" 150 "client_request" none none 9
    (by norm_num) (by decide) rfl (by rw [ht]; norm_num [completedPayment])

/-! ### C6: driver assignment -/

theorem updateStatus_driver (s : Shipment) (now : Nat) (st : ShipmentStatus)
    (loc notes : Option String) (ub : String) (uu : Option Nat) :
    (s.updateStatus now st loc notes ub uu).driver = s.driver := by
  unfold Shipment.updateStatus
  split <;> try split
  all_goals rfl

/-- C6: assigning a driver fails with a not-found error when the driver or
the shipment is missing, with the ineligibility error when the driver's
status or KYC status is not `approved`, and with the invalid-state error
when the shipment is not `pending`; every failure leaves the stored
shipment unchanged (in particular a pending shipment stays `pending` with
`driver` still null), and success sets the driver reference, moves the
status to `assigned` and appends exactly one timeline entry. -/
theorem assign_driver_spec :
    (∀ now s? driverId adminId,
       assignDriver now none s? driverId adminId = .error .driverNotFound) ∧
    (∀ now d driverId adminId,
       (d.status ≠ .approved ∨ d.kycStatus ≠ .approved) →
       (∀ s?, assignDriver now (some d) s? driverId adminId
          = .error .driverNotEligible) ∧
       (∀ s, storedAfterAssign now (some d) s driverId adminId = s)) ∧
    (∀ now d driverId adminId, d.status = .approved → d.kycStatus = .approved →
       assignDriver now (some d) none driverId adminId
         = .error .shipmentNotFound) ∧
    (∀ now d s driverId adminId, d.status = .approved → d.kycStatus = .approved →
       s.status ≠ .pending →
       assignDriver now (some d) (some s) driverId adminId
         = .error .notPendingShipment ∧
       storedAfterAssign now (some d) s driverId adminId = s) ∧
    (∀ now d s driverId adminId, d.status = .approved → d.kycStatus = .approved →
       s.status = .pending →
       ∃ s', assignDriver now (some d) (some s) driverId adminId = .ok s' ∧
         s'.driver = some driverId ∧ s'.status = .assigned ∧
         s'.timeline.length = s.timeline.length + 1) := by
  refine ⟨fun now s? driverId adminId => rfl, ?_, ?_, ?_, ?_⟩
  · intro now d driverId adminId hd
    have herr : ∀ s?, assignDriver now (some d) s? driverId adminId
        = .error .driverNotEligible := by
      intro s?
      simp only [assignDriver]
      rw [if_pos hd]
    exact ⟨herr, fun s => by unfold storedAfterAssign; rw [herr]⟩
  · intro now d driverId adminId hd1 hd2
    simp only [assignDriver]
    rw [if_neg (by simp [hd1, hd2])]
  · intro now d s driverId adminId hd1 hd2 hs
    have herr : assignDriver now (some d) (some s) driverId adminId
        = .error .notPendingShipment := by
      simp only [assignDriver]
      rw [if_neg (by simp [hd1, hd2]), if_pos hs]
    exact ⟨herr, by unfold storedAfterAssign; rw [herr]⟩
  · intro now d s driverId adminId hd1 hd2 hs
    refine ⟨({ s with driver := some driverId }).updateStatus now .assigned
        none (some ("Assigned to driver " ++ d.fullName)) "admin" (some adminId),
      ?_, ?_, ?_, ?_⟩
    · simp only [assignDriver]
      rw [if_neg (by simp [hd1, hd2]), if_neg (not_not_intro hs)]
    · rw [updateStatus_driver]
    · rw [updateStatus_status]
    · rw [updateStatus_timeline]
      simp

/-- A sample driver who applied but is not yet approved. -/
def pendingDriver : Driver :=
  ⟨"Pat Doe", .pending, .pending⟩

/-- Witness for C6, the §8 scenario: assigning a non-approved driver fails
with the ineligibility error and the pending shipment keeps `driver`
null and status `pending`. -/
theorem assign_driver_spec_witness :
    assignDriver 600 (some pendingDriver) (some sampleShipment) 3 1
      = .error .driverNotEligible ∧
    storedAfterAssign 600 (some pendingDriver) sampleShipment 3 1
      = sampleShipment ∧
    sampleShipment.status = .pending ∧
    sampleShipment.driver = none :=
  have h := assign_driver_spec.2.1 600 pendingDriver 3 1 (Or.inl (by decide))
  ⟨h.1 (some sampleShipment), h.2 sampleShipment, rfl, rfl⟩

/-! ### C7: shipment creation -/

theorem manifestWeight_go (items : List RawItem) (c : Rat) :
    items.foldl (fun t it => t + it.weight * (it.quantity : Rat)) c
      = c + (items.map (fun it => it.weight * (it.quantity : Rat))).sum := by
  induction items generalizing c with
  | nil => simp
  | cons x xs ih => simp [ih, add_assoc]

theorem manifestWeight_eq_sum (items : List RawItem) :
    manifestWeight items
      = (items.map (fun it => it.weight * (it.quantity : Rat))).sum := by
  unfold manifestWeight
  rw [manifestWeight_go]
  ring

theorem manifestValue_go (items : List RawItem) (c : Rat) :
    items.foldl (fun t it =>
      match it.valueAmount with
      | some v => if v = 0 then t else t + v * (it.quantity : Rat)
      | none => t) c
      = c + (items.map (fun it => it.valueAmount.getD 0 * (it.quantity : Rat))).sum := by
  induction items generalizing c with
  | nil => simp
  | cons x xs ih =>
    cases hv : x.valueAmount with
    | none => simp [hv, ih]
    | some v =>
      by_cases hz : v = 0
      · simp [hv, hz, ih]
      · simp [hv, hz, ih, add_assoc]

theorem manifestValue_eq_sum (items : List RawItem) :
    manifestValue items
      = (items.map (fun it => it.valueAmount.getD 0 * (it.quantity : Rat))).sum := by
  unfold manifestValue
  rw [manifestValue_go]
  ring

theorem requestValid_items (r : ShipmentRequest) (h : requestValid r = true) :
    r.items.all itemValid = true := by
  unfold requestValid at h
  simp only [Bool.and_eq_true] at h
  tauto

/-- C7: creation fails with a validation error when a manifest item
violates its constraints, with the date errors when the pickup date is in
the past or the delivery date is not after it; on success `totalWeight`
and `totalValue` are the manifest sums of weight × quantity and
value × quantity, the status is `pending` and the timeline is exactly the
single initial `pending` entry. -/
theorem create_shipment_spec :
    (∀ now clientId r, (∃ it ∈ r.items, itemValid it = false) →
       createShipment now clientId r = .error .validationErrors) ∧
    (∀ now clientId r, requestValid r = true → r.requestedPickupDate < now →
       createShipment now clientId r = .error .pickupDateInPast) ∧
    (∀ now clientId r, requestValid r = true → now ≤ r.requestedPickupDate →
       r.requestedDeliveryDate ≤ r.requestedPickupDate →
       createShipment now clientId r = .error .deliveryDateNotAfterPickup) ∧
    (∀ now clientId r s, createShipment now clientId r = .ok s →
       s.totalWeight = (r.items.map (fun it => it.weight * (it.quantity : Rat))).sum ∧
       s.totalValue
         = (r.items.map (fun it => it.valueAmount.getD 0 * (it.quantity : Rat))).sum ∧
       s.status = .pending ∧
       s.timeline.map TimelineEntry.status = [.pending] ∧
       s.timeline.length = 1) := by
  refine ⟨?_, ?_, ?_, ?_⟩
  · rintro now clientId r ⟨it, hmem, hbad⟩
    unfold createShipment
    rw [if_pos]
    intro hval
    have hall := List.all_eq_true.mp (requestValid_items r hval) it hmem
    rw [hbad] at hall
    exact Bool.false_ne_true hall
  · intro now clientId r hval hpast
    unfold createShipment
    rw [if_neg (not_not_intro hval), if_pos hpast]
  · intro now clientId r hval hfut hdel
    unfold createShipment
    rw [if_neg (not_not_intro hval), if_neg (not_lt.mpr hfut), if_pos hdel]
  · intro now clientId r s h
    unfold createShipment at h
    split at h
    · exact absurd h (by simp)
    · split at h
      · exact absurd h (by simp)
      · split at h
        · exact absurd h (by simp)
        · rw [← Except.ok.inj h]
          refine ⟨?_, ?_, rfl, rfl, rfl⟩
          · simp [preSaveNewShipment, manifestWeight_eq_sum]
          · simp [preSaveNewShipment, manifestValue_eq_sum]

/-- Witness for C7, the §8 scenario: the sample request (one item with
quantity 2 and weight 5 kg) creates a shipment with `totalWeight` 10,
status `pending` and timeline length 1. -/
theorem create_shipment_spec_witness :
    createShipment 500 7 sampleRequest = .ok sampleShipment ∧
    sampleShipment.totalWeight = 10 ∧
    sampleShipment.status = .pending ∧
    sampleShipment.timeline.length = 1 := by
  have h := create_shipment_spec.2.2.2 500 7 sampleRequest sampleShipment
    createShipment_sample
  refine ⟨createShipment_sample, ?_, h.2.2.1, h.2.2.2.2⟩
  rw [h.1]
  norm_num [sampleRequest, sampleItem]

/-! ### C8: payment creation, duplicate guard and terms cascade -/

theorem createPayment_ok_shipment (now : Nat) (lookup : Option (Shipment × ClientInfo))
    (payments : List Payment) (r : PaymentRequest) (p : Payment)
    (h : createPayment now lookup payments r = .ok p) :
    p.shipment = r.shipmentId ∧ ∀ q ∈ payments, q.shipment ≠ r.shipmentId := by
  cases lookup with
  | none =>
    unfold createPayment at h
    split at h <;> simp_all
  | some x =>
    obtain ⟨sh, ci⟩ := x
    unfold createPayment at h
    split at h
    · exact absurd h (by simp)
    · split at h
      · exact absurd h (by simp)
      · split at h
        · exact absurd h (by simp)
        · rename_i hany
          refine ⟨by rw [← Except.ok.inj h]; rfl, ?_⟩
          intro q hq hcontra
          exact hany (List.any_eq_true.mpr ⟨q, hq, by simp [hcontra]⟩)

/-- C8: with a valid request, creating a payment for a shipment that
already has one fails with the duplicate error and stores nothing, the
stored collection always keeps at most one payment per shipment, and on
success the payment starts `pending` with its terms chosen by the cascade
explicit value > client billing terms > `net_30`. -/
theorem create_payment_spec :
    (∀ now sh ci payments r, paymentRequestValid r = true →
       (∃ q ∈ payments, q.shipment = r.shipmentId) →
       createPayment now (some (sh, ci)) payments r = .error .duplicatePayment ∧
       paymentsAfterCreate now (some (sh, ci)) payments r = payments) ∧
    (∀ now lookup payments r,
       payments.Pairwise (fun a b => a.shipment ≠ b.shipment) →
       (paymentsAfterCreate now lookup payments r).Pairwise
         (fun a b => a.shipment ≠ b.shipment)) ∧
    (∀ now sh ci payments r p,
       createPayment now (some (sh, ci)) payments r = .ok p →
       p.shipment = r.shipmentId ∧ p.status = .pending ∧
       (∀ t, r.terms = some t → p.terms = t) ∧
       (r.terms = none → ∀ ct, ci.paymentTerms = some ct → p.terms = ct) ∧
       (r.terms = none → ci.paymentTerms = none → p.terms = "net_30")) := by
  refine ⟨?_, ?_, ?_⟩
  · rintro now sh ci payments r hval ⟨q, hq, hqs⟩
    have hany : (payments.any fun q => q.shipment = r.shipmentId) = true :=
      List.any_eq_true.mpr ⟨q, hq, by simp [hqs]⟩
    have herr : createPayment now (some (sh, ci)) payments r
        = .error .duplicatePayment := by
      simp only [createPayment]
      rw [if_neg (not_not_intro hval), if_pos hany]
    exact ⟨herr, by unfold paymentsAfterCreate; rw [herr]⟩
  · intro now lookup payments r hpw
    unfold paymentsAfterCreate
    cases hres : createPayment now lookup payments r with
    | error e => exact hpw
    | ok p =>
      obtain ⟨hship, hnone⟩ := createPayment_ok_shipment now lookup payments r p hres
      rw [List.pairwise_append]
      refine ⟨hpw, by simp, ?_⟩
      intro a ha b hb
      simp only [List.mem_singleton] at hb
      subst hb
      rw [hship] at *
      intro hcontra
      exact hnone a ha hcontra
  · intro now sh ci payments r p h
    have hp : p = preSaveNewPayment now
        { client := sh.client
          shipment := r.shipmentId
          amountSubtotal := r.amountSubtotal
          amountTotal := r.amountTotal
          status := .pending
          timeline := []
          paidDate := none
          terms := r.terms.getD (ci.paymentTerms.getD "net_30")
          refunds := []
          partialPayments := [] } := by
      unfold createPayment at h
      split at h
      · exact absurd h (by simp)
      · split at h
        · exact absurd h (by simp)
        · rename_i x sh2 ci2 heq
          injection heq with heq1
          injection heq1 with hsh hci
          subst hsh
          subst hci
          split at h
          · exact absurd h (by simp)
          · exact (Except.ok.inj h).symm
    subst hp
    refine ⟨rfl, rfl, ?_, ?_, ?_⟩
    · intro t ht
      simp [preSaveNewPayment, ht]
    · intro h0 ct hct
      simp [preSaveNewPayment, h0, hct]
    · intro h0 hct
      simp [preSaveNewPayment, h0, hct]

/-- A sample create-payment request for shipment 11 with no explicit
terms. -/
def samplePaymentRequest : PaymentRequest :=
  ⟨11, 100, 100, 5000, none⟩

/-- A sample client with no configured billing terms. -/
def sampleClientInfo : ClientInfo :=
  ⟨none⟩

/-- The payment the create route produces from `samplePaymentRequest` at
time 40 against an empty collection. -/
def createdPayment : Payment :=
  preSaveNewPayment 40
    { client := 7
      shipment := 11
      amountSubtotal := 100
      amountTotal := 100
      status := .pending
      timeline := []
      paidDate := none
      terms := "net_30"
      refunds := []
      partialPayments := [] }

theorem samplePaymentRequest_valid :
    paymentRequestValid samplePaymentRequest = true := by
  simp [paymentRequestValid, samplePaymentRequest]

theorem createPayment_sample :
    createPayment 40 (some (sampleShipment, sampleClientInfo)) []
      samplePaymentRequest = .ok createdPayment := by
  simp only [createPayment]
  rw [if_neg (not_not_intro samplePaymentRequest_valid), if_neg (by simp)]
  simp [createdPayment, preSaveNewPayment, sampleShipment, samplePaymentRequest,
    sampleClientInfo]

/-- Witness for C8: creating the sample payment against an empty
collection succeeds with terms falling back to `net_30`; re-creating one
for the same shipment fails with the duplicate error and stores nothing. -/
theorem create_payment_spec_witness :
    createPayment 40 (some (sampleShipment, sampleClientInfo)) []
      samplePaymentRequest = .ok createdPayment ∧
    createdPayment.terms = "net_30" ∧
    createPayment 45 (some (sampleShipment, sampleClientInfo)) [createdPayment]
      samplePaymentRequest = .error .duplicatePayment ∧
    paymentsAfterCreate 45 (some (sampleShipment, sampleClientInfo))
      [createdPayment] samplePaymentRequest = [createdPayment] := by
  have hterms := (create_payment_spec.2.2 40 sampleShipment sampleClientInfo []
    samplePaymentRequest createdPayment createPayment_sample).2.2.2.2 rfl rfl
  have hdup := create_payment_spec.1 45 sampleShipment sampleClientInfo
    [createdPayment] samplePaymentRequest samplePaymentRequest_valid
    ⟨createdPayment, by simp, by simp [createdPayment, preSaveNewPayment,
      samplePaymentRequest]⟩
  exact ⟨createPayment_sample, hterms, hdup.1, hdup.2⟩

/-! ### C9 and C10: admin login attempts, lockout and its ordering -/

theorem adminLogin_wrong (a : Admin) (now : Nat) (pw sid : String)
    (h : pw ≠ a.password) :
    adminLogin a now pw sid = (.invalidCredentials, a.handleLoginAttempt now false sid) := by
  unfold adminLogin
  rw [if_pos h]

theorem adminLogin_locked (a : Admin) (now : Nat) (sid : String)
    (hact : a.status = .active) (hlock : a.isLocked now = true) :
    adminLogin a now a.password sid = (.accountLocked, a) := by
  unfold adminLogin
  rw [if_neg (not_not_intro rfl), if_neg (by rw [hact]; decide), if_pos hlock]

theorem adminLogin_success (a : Admin) (now : Nat) (sid : String)
    (hact : a.status = .active) (hnotlock : a.isLocked now = false) :
    adminLogin a now a.password sid = (.loggedIn, a.handleLoginAttempt now true sid) := by
  unfold adminLogin
  rw [if_neg (not_not_intro rfl), if_neg (by rw [hact]; decide),
    if_neg (by simp [hnotlock])]

theorem handleLoginAttempt_true_fields (a : Admin) (now : Nat) (sid : String) :
    (a.handleLoginAttempt now true sid).loginCount = 0 ∧
    (a.handleLoginAttempt now true sid).lockedUntil = none := by
  by_cases h : 5 < a.activeSessions.length + 1
  · simp [Admin.handleLoginAttempt, h]
  · simp [Admin.handleLoginAttempt, h]

/-- One wrong-password login against an admin: the uniform
invalid-credentials response, the incremented counter, and the lock set 30
minutes from now exactly when the counter reaches 5. -/
theorem failure_step (a : Admin) (now : Nat) (w sid : String) (hw : w ≠ a.password) :
    (adminLogin a now w sid).1 = .invalidCredentials ∧
    (adminLogin a now w sid).2.loginCount = a.loginCount + 1 ∧
    (adminLogin a now w sid).2.password = a.password ∧
    (adminLogin a now w sid).2.status = a.status ∧
    (adminLogin a now w sid).2.lockedUntil =
      (if 5 ≤ a.loginCount + 1 then some (now + lockMillis) else a.lockedUntil) := by
  rw [adminLogin_wrong a now w sid hw]
  unfold Admin.handleLoginAttempt
  by_cases h : 5 ≤ a.loginCount + 1
  · simp [h]
  · simp [h]

/-- C9: starting from an active admin with a clean failure counter, five
consecutive wrong-password logins leave the counter at 5 and lock the
account until 30 minutes after the fifth failure; while the lock holds,
a login with the correct password still fails with the locked error and
changes nothing; once the 30 minutes have elapsed, the correct password
logs in, resets the counter to 0 and clears the lock. -/
theorem admin_lockout_spec (a : Admin) (w sid : String) (t1 t2 t3 t4 t5 : Nat)
    (hact : a.status = .active) (hcount : a.loginCount = 0) (hw : w ≠ a.password) :
    let a1 := (adminLogin a t1 w sid).2
    let a2 := (adminLogin a1 t2 w sid).2
    let a3 := (adminLogin a2 t3 w sid).2
    let a4 := (adminLogin a3 t4 w sid).2
    let a5 := (adminLogin a4 t5 w sid).2
    a5.loginCount = 5 ∧
    a5.lockedUntil = some (t5 + lockMillis) ∧
    (∀ t6, t6 < t5 + lockMillis →
       (adminLogin a5 t6 a.password sid).1 = .accountLocked ∧
       (adminLogin a5 t6 a.password sid).2 = a5) ∧
    (∀ t6, t5 + lockMillis ≤ t6 →
       (adminLogin a5 t6 a.password sid).1 = .loggedIn ∧
       (adminLogin a5 t6 a.password sid).2.loginCount = 0 ∧
       (adminLogin a5 t6 a.password sid).2.lockedUntil = none) := by
  intro a1 a2 a3 a4 a5
  obtain ⟨-, hc1, hp1, hs1, -⟩ := failure_step a t1 w sid hw
  rw [hcount] at hc1
  obtain ⟨-, hc2, hp2, hs2, -⟩ := failure_step a1 t2 w sid (hp1 ▸ hw)
  rw [hc1] at hc2
  obtain ⟨-, hc3, hp3, hs3, -⟩ := failure_step a2 t3 w sid ((hp2.trans hp1) ▸ hw)
  rw [hc2] at hc3
  obtain ⟨-, hc4, hp4, hs4, -⟩ := failure_step a3 t4 w sid ((hp3.trans (hp2.trans hp1)) ▸ hw)
  rw [hc3] at hc4
  obtain ⟨-, hc5, hp5, hs5, hl5⟩ :=
    failure_step a4 t5 w sid ((hp4.trans (hp3.trans (hp2.trans hp1))) ▸ hw)
  rw [hc4] at hc5 hl5
  rw [if_pos (by omega)] at hl5
  have hp5' : a5.password = a.password :=
    hp5.trans (hp4.trans (hp3.trans (hp2.trans hp1)))
  have hs5' : a5.status = .active :=
    hs5.trans (hs4.trans (hs3.trans (hs2.trans (hs1.trans hact))))
  refine ⟨hc5, hl5, ?_, ?_⟩
  · intro t6 ht
    have hlock : a5.isLocked t6 = true := by
      unfold Admin.isLocked
      rw [hl5]
      simpa using ht
    have := adminLogin_locked a5 t6 sid hs5' hlock
    rw [hp5'] at this
    rw [this]
    exact ⟨rfl, rfl⟩
  · intro t6 ht
    have hnotlock : a5.isLocked t6 = false := by
      unfold Admin.isLocked
      rw [hl5]
      simpa using ht
    have hlog := adminLogin_success a5 t6 sid hs5' hnotlock
    rw [hp5'] at hlog
    rw [hlog]
    obtain ⟨hz, hn⟩ := handleLoginAttempt_true_fields a5 t6 sid
    exact ⟨rfl, hz, hn⟩

/-- A sample active admin with a clean login-attempt counter. -/
def sampleAdmin : Admin :=
  { password := "hunter2hash"
    status := .active
    loginCount := 0
    lastAttempt := none
    lockedUntil := none
    lastLogin := none
    totalLogins := 0
    activeSessions := [] }

/-- Witness for C9 on the sample admin with failures at times 1..5: the
account locks until `5 + lockMillis`, the correct password at time 6 is
still rejected as locked, and at time `5 + lockMillis` it logs in and
clears the counter and lock. -/
theorem admin_lockout_spec_witness :
    ((adminLogin ((adminLogin ((adminLogin ((adminLogin ((adminLogin sampleAdmin
        1 "wrong" "s").2) 2 "wrong" "s").2) 3 "wrong" "s").2) 4 "wrong" "s").2)
        5 "wrong" "s").2).lockedUntil = some (5 + lockMillis) ∧
    (adminLogin ((adminLogin ((adminLogin ((adminLogin ((adminLogin ((adminLogin
        sampleAdmin 1 "wrong" "s").2) 2 "wrong" "s").2) 3 "wrong" "s").2)
        4 "wrong" "s").2) 5 "wrong" "s").2) 6 "hunter2hash" "s").1
      = .accountLocked ∧
    (adminLogin ((adminLogin ((adminLogin ((adminLogin ((adminLogin ((adminLogin
        sampleAdmin 1 "wrong" "s").2) 2 "wrong" "s").2) 3 "wrong" "s").2)
        4 "wrong" "s").2) 5 "wrong" "s").2) (5 + lockMillis) "hunter2hash" "s").1
      = .loggedIn := by
  have h := admin_lockout_spec sampleAdmin "wrong" "s" 1 2 3 4 5 rfl rfl
    (by decide)
  exact ⟨h.2.1, (h.2.2.1 6 (by norm_num [lockMillis])).1,
    (h.2.2.2 (5 + lockMillis) (le_refl _)).1⟩

/-- C10: the admin login flow checks the password before the lock, so on a
locked account a wrong password still yields the uniform
invalid-credentials error, increments the counter and re-extends the lock
to 30 minutes from this latest failure; the locked error is only reachable
with the correct password. -/
theorem locked_check_after_password_spec :
    (∀ a now pw sid (T : Nat), pw ≠ a.password → a.lockedUntil = some T →
       now < T → 5 ≤ a.loginCount →
       (adminLogin a now pw sid).1 = .invalidCredentials ∧
       (adminLogin a now pw sid).2.loginCount = a.loginCount + 1 ∧
       (adminLogin a now pw sid).2.lockedUntil = some (now + lockMillis)) ∧
    (∀ a now pw sid, (adminLogin a now pw sid).1 = .accountLocked →
       pw = a.password) := by
  constructor
  · intro a now pw sid T hw hT hlt hcount
    obtain ⟨hout, hc, -, -, hl⟩ := failure_step a now pw sid hw
    rw [if_pos (by omega)] at hl
    exact ⟨hout, hc, hl⟩
  · intro a now pw sid h
    by_contra hne
    rw [(adminLogin_wrong a now pw sid hne)] at h
    exact LoginOutcome.noConfusion h

/-- Witness for C10: on the sample admin locked until time 2000000 with
counter 5, a wrong password at time 100 yields invalid credentials (not
the locked error), counter 6, and a lock re-extended to `100 + lockMillis`. -/
theorem locked_check_after_password_spec_witness :
    (adminLogin { sampleAdmin with loginCount := 5, lockedUntil := some 2000000 }
        100 "wrong" "s").1 = .invalidCredentials ∧
    (adminLogin { sampleAdmin with loginCount := 5, lockedUntil := some 2000000 }
        100 "wrong" "s").2.loginCount = 6 ∧
    (adminLogin { sampleAdmin with loginCount := 5, lockedUntil := some 2000000 }
        100 "wrong" "s").2.lockedUntil = some (100 + lockMillis) :=
  locked_check_after_password_spec.1
    { sampleAdmin with loginCount := 5, lockedUntil := some 2000000 }
    100 "wrong" "s" 2000000 (by decide) rfl (by norm_num) (by norm_num)

end Logistic
